import Mathlib

/-!
Shallow embedding of the 3dafy application (src/src/index.jsx).

The program turns one uploaded image into an extruded textured box and
exports it as a GLB container. We embed:

* the three.js objects the source constructs (`Texture`, `Material`),
  with an explicit allocation counter standing for the fresh object
  identity (uuid) every `new` in three.js produces;
* the `useMemo` material computation of `ExtrudedImageBox`
  (`previewMaterials`) and the material array built inside
  `handleDownload` (`exportMaterials`);
* the asynchronous texture-load pipeline of `ExtrudedImageBox` as a
  trace of load events folded over the effect of the decode callback
  (`runTextureEffect`);
* the upload handler `handleFile` over the application state, tracking
  the object URLs created by `URL.createObjectURL`;
* the GLB container layout (header, space-padded JSON chunk,
  zero-padded binary chunk), modelled from the spec because the actual
  emission lives in the external three.js GLTFExporter, not in src/.
-/

/-- A three.js texture object as observed by this program: its object
identity `id` (the fresh uuid of each constructed object), the source url
it loads from, and whether its image has finished decoding.
`THREE.TextureLoader().load(url)` returns immediately with a texture whose
image is not yet decoded; the decode callback later populates it. -/
structure Texture where
  id : Nat
  url : String
  loaded : Bool
deriving DecidableEq

/-- A `THREE.MeshStandardMaterial` as constructed by the source: object
identity `id` (fresh per `new`), the color option (three.js defaults to
white `#fff` when only a map is given), and the optional texture map. -/
structure Material where
  id : Nat
  color : String
  map : Option Texture
deriving DecidableEq

/-- The value content of a material with object identity erased: the
material descriptor of the data model. The slot is textured exactly when
`map` is present; `map` keeps only the texture's source url. -/
structure Descr where
  color : String
  map : Option String
deriving DecidableEq

/-- Erase object identity, keeping the descriptor value. -/
def Material.descr (m : Material) : Descr :=
  { color := m.color, map := m.map.map Texture.url }

/-- `new THREE.MeshStandardMaterial(...)`: allocate a fresh material
object, returning it with the advanced allocation counter. -/
def mkMat (ctr : Nat) (color : String) (map : Option Texture) :
    Material × Nat :=
  ({ id := ctr, color := color, map := map }, ctr + 1)

/-- `new THREE.TextureLoader().load(url)`: allocates a fresh texture that
is returned immediately, before its image has decoded (`loaded := false`). -/
def loadTexture (url : String) (ctr : Nat) : Texture × Nat :=
  ({ id := ctr, url := url, loaded := false }, ctr + 1)

/-- The six material slots in the source's fixed array order. -/
structure BoxMats where
  right : Material
  left : Material
  top : Material
  bottom : Material
  front : Material
  back : Material
deriving DecidableEq

/-- The six slots as the array the source returns:
right, left, top, bottom, front, back. -/
def BoxMats.toList (m : BoxMats) : List Material :=
  [m.right, m.left, m.top, m.bottom, m.front, m.back]

/-- The `useMemo` material computation of `ExtrudedImageBox`
(src/src/index.jsx lines 34-53): one shared `colorMat` used for all four
side slots; `frontMat` textured when `texture.current` is set, else flat
white; `backMat` textured when `backMode === "image" && texture.current`,
else flat side color. `texture` is the current value of the
`texture.current` ref; `ctr` is the allocation counter. -/
def previewMaterials (sideColor : String) (texture : Option Texture)
    (backMode : String) (ctr : Nat) : BoxMats × Nat :=
  let p1 := mkMat ctr sideColor none
  let p2 :=
    match texture with
    | some t => mkMat p1.2 "#fff" (some t)
    | none => mkMat p1.2 "#fff" none
  let p3 :=
    if backMode == "image" && texture.isSome then
      mkMat p2.2 "#fff" texture
    else
      mkMat p2.2 sideColor none
  ({ right := p1.1, left := p1.1, top := p1.1, bottom := p1.1,
     front := p2.1, back := p3.1 }, p3.2)

/-- The material array built inside `handleDownload`
(src/src/index.jsx lines 84-104): four separately constructed flat side
materials; a front material whose map is a fresh `TextureLoader().load`
result when `imageUrl` is set (null otherwise) and whose color is `#fff`
in either case; and a back that repeats the front construction with its
own fresh loader call when `backMode === "image"`, else a flat side-color
material. Every texture here is freshly created and not yet loaded. -/
def exportMaterials (sideColor : String) (imageUrl : Option String)
    (backMode : String) (ctr : Nat) : BoxMats × Nat :=
  let p0 := mkMat ctr sideColor none
  let p1 := mkMat p0.2 sideColor none
  let p2 := mkMat p1.2 sideColor none
  let p3 := mkMat p2.2 sideColor none
  let ft :=
    match imageUrl with
    | some u => let t := loadTexture u p3.2; (some t.1, t.2)
    | none => ((none : Option Texture), p3.2)
  let pf := mkMat ft.2 "#fff" ft.1
  let pb :=
    if backMode == "image" then
      let bt :=
        match imageUrl with
        | some u => let t := loadTexture u pf.2; (some t.1, t.2)
        | none => ((none : Option Texture), pf.2)
      mkMat bt.2 "#fff" bt.1
    else
      mkMat pf.2 sideColor none
  ({ right := p0.1, left := p1.1, top := p2.1, bottom := p3.1,
     front := pf.1, back := pb.1 }, pb.2)

/-- Events of the asynchronous texture pipeline of `ExtrudedImageBox`:
`start url` is a `useEffect` run issuing `loader.load(url, cb)`;
`complete url tex` is the decode callback of that load firing with the
decoded texture. -/
inductive LoadEvent where
  | start (url : String)
  | complete (url : String) (tex : Texture)
deriving DecidableEq

/-- Effect of one event on the `texture.current` ref
(src/src/index.jsx lines 19-31): starting a load changes nothing yet; the
completion callback stores its texture unconditionally — the source
neither cancels a pending load nor checks whether the arriving result is
stale. -/
def textureEffectStep (cur : Option Texture) : LoadEvent → Option Texture
  | .start _ => cur
  | .complete _ t => some t

/-- The `texture.current` ref after a trace of load events, starting from
no texture. -/
def runTextureEffect (es : List LoadEvent) : Option Texture :=
  es.foldl textureEffectStep none

/-- The application state of `App`: the four `useState` hooks plus the
list of object URLs created by `URL.createObjectURL` and not yet revoked
(newest first). Object URLs are modelled by the allocation counter value
at their creation. -/
structure AppState where
  imageUrl : Option Nat
  extrusion : Rat
  sideColor : String
  backMode : String
  allocated : List Nat
deriving DecidableEq

/-- The initial hook values of `App`
(src/src/index.jsx lines 68-71). -/
def initialState : AppState :=
  { imageUrl := none, extrusion := 1 / 5, sideColor := "#2196f3",
    backMode := "image", allocated := [] }

/-- `handleFile` (src/src/index.jsx lines 74-77): reads the selected
file; when one is present it creates a fresh object URL and stores it in
`imageUrl`. The source never calls `URL.revokeObjectURL`, so no entry
ever leaves `allocated`. When no file was chosen nothing happens. -/
def handleFile (file : Option String) (s : AppState) (ctr : Nat) :
    AppState × Nat :=
  match file with
  | some _ =>
      ({ s with imageUrl := some ctr, allocated := ctr :: s.allocated },
        ctr + 1)
  | none => (s, ctr)

/-- Modelled from the spec: right-pad a chunk payload with space bytes
(0x20) to the next 4-byte boundary (the structured-metadata chunk rule of
the container format; the emission itself lives in the external three.js
GLTFExporter, absent from src/). -/
def padSpaces (l : List Nat) : List Nat :=
  l ++ List.replicate ((4 - l.length % 4) % 4) 32

/-- Modelled from the spec: right-pad a chunk payload with zero bytes to
the next 4-byte boundary (the binary chunk rule of the container
format). -/
def padZeros (l : List Nat) : List Nat :=
  l ++ List.replicate ((4 - l.length % 4) % 4) 0

/-- A 32-bit little-endian integer as four bytes. -/
def u32le (n : Nat) : List Nat :=
  [n % 256, n / 256 % 256, n / 65536 % 256, n / 16777216 % 256]

/-- Modelled from the spec: the total file length declared in the
header — 12 header bytes, then 8 chunk-header bytes plus the padded JSON
payload, then 8 chunk-header bytes plus the padded binary payload. -/
def glbTotal (json bin : List Nat) : Nat :=
  12 + 8 + (padSpaces json).length + 8 + (padZeros bin).length

/-- Modelled from the spec: emission of the whole binary container, the
layout of section 4.4 — a 12-byte header (magic 0x46546C67, version 2,
total length), the space-padded JSON chunk (type 0x4E4F534A), and the
zero-padded binary chunk (type 0x004E4942), all multi-byte integers
little-endian. This buffer is exactly the blob `handleDownload` exposes
for download. -/
def serializeGlb (json bin : List Nat) : List Nat :=
  u32le 0x46546C67 ++ u32le 2 ++ u32le (glbTotal json bin) ++
    u32le (padSpaces json).length ++ u32le 0x4E4F534A ++ padSpaces json ++
    u32le (padZeros bin).length ++ u32le 0x004E4942 ++ padZeros bin

/-- Read the header's total-length field: bytes 8..11 of the file,
little-endian. -/
def readTotalLength : List Nat → Nat
  | _ :: _ :: _ :: _ :: _ :: _ :: _ :: _ :: a :: b :: c :: d :: _ =>
      a + 256 * b + 65536 * c + 16777216 * d
  | _ => 0

theorem serializeGlb_length (json bin : List Nat) :
    (serializeGlb json bin).length = glbTotal json bin := by
  simp [serializeGlb, glbTotal, u32le]
  omega

theorem readTotalLength_glb (m v t : Nat) (rest : List Nat)
    (h : t < 4294967296) :
    readTotalLength (u32le m ++ u32le v ++ u32le t ++ rest) = t := by
  simp only [u32le, List.cons_append, List.nil_append, readTotalLength]
  omega

/-- C1: evaluation of the export path at a failing input. An image has
been uploaded (imageUrl is set), yet the scene handed to the serializer
has a front material whose texture is not loaded: `handleDownload`
creates the texture with a fresh `TextureLoader().load` and calls
`exporter.parse` synchronously, so the decode can never have completed —
the export does not wait for the in-flight decode. -/
theorem c1_export_sees_unloaded_texture :
    ((exportMaterials "#2196f3" (some "blob:0") "image" 0).1.front.map.map
      Texture.loaded) = some false ∧
    ((exportMaterials "#2196f3" (some "blob:0") "image" 0).1.back.map.map
      Texture.loaded) = some false := by
  decide

/-- C2 (serializer modelled from the spec): the 12-byte header's
total-length field of the emitted container equals the byte length of the
whole emitted buffer — header plus space-padded metadata chunk plus
zero-padded binary chunk — so the buffer exposed for download always
satisfies the length check. -/
theorem c2_header_total_length (json bin : List Nat)
    (h : glbTotal json bin < 4294967296) :
    readTotalLength (serializeGlb json bin) =
      (serializeGlb json bin).length := by
  rw [serializeGlb_length json bin]
  exact readTotalLength_glb 0x46546C67 2 (glbTotal json bin) _ h

/-- C2 witness: the length check at a concrete two-byte JSON payload and
three-byte binary payload. -/
theorem c2_header_total_length_witness :
    glbTotal [123, 125] [1, 2, 3] < 4294967296 ∧
    readTotalLength (serializeGlb [123, 125] [1, 2, 3]) =
      (serializeGlb [123, 125] [1, 2, 3]).length :=
  ⟨by decide, c2_header_total_length [123, 125] [1, 2, 3] (by decide)⟩

/-- C3 counterexample: with backMode image and an uploaded image, the
export path loads the image twice, so the front and back materials of the
export scene reference two distinct texture objects — the exported front
and back primitives do not share a single embedded texture entry, and the
image bytes would be embedded once per texture. -/
theorem c3_counterexample :
    (exportMaterials "#2196f3" (some "blob:0") "image" 0).1.front.map ≠
      (exportMaterials "#2196f3" (some "blob:0") "image" 0).1.back.map := by
  decide

/-- C3 amended: for backMode image with a present texture the back
descriptor equals the front descriptor in both the preview and the export
model, and in the preview front and back share the one texture object;
but the export path allocates a distinct fresh texture object for each of
front and back, so the exported primitives reference two distinct texture
entries rather than one. -/
theorem c3_back_equals_front_but_export_duplicates (sc u : String)
    (t : Texture) (c d : Nat) :
    ((previewMaterials sc (some t) "image" c).1.back.descr =
      (previewMaterials sc (some t) "image" c).1.front.descr) ∧
    ((previewMaterials sc (some t) "image" c).1.back.map =
      (previewMaterials sc (some t) "image" c).1.front.map) ∧
    ((exportMaterials sc (some u) "image" d).1.back.descr =
      (exportMaterials sc (some u) "image" d).1.front.descr) ∧
    ((exportMaterials sc (some u) "image" d).1.back.map ≠
      (exportMaterials sc (some u) "image" d).1.front.map) := by
  refine ⟨rfl, rfl, rfl, ?_⟩
  simp [exportMaterials, mkMat, loadTexture]
  omega

/-- C4: with backMode color the back descriptor equals the side
descriptor — flat, color = sideColor — in both the preview model and the
export scene. -/
theorem c4_back_equals_side (sc : String) (tex : Option Texture)
    (u : Option String) (c d : Nat) :
    ((previewMaterials sc tex "color" c).1.back.descr =
      (previewMaterials sc tex "color" c).1.right.descr) ∧
    ((previewMaterials sc tex "color" c).1.back.descr = ⟨sc, none⟩) ∧
    ((exportMaterials sc u "color" d).1.back.descr =
      (exportMaterials sc u "color" d).1.right.descr) ∧
    ((exportMaterials sc u "color" d).1.back.descr = ⟨sc, none⟩) := by
  cases tex <;> cases u <;>
    simp [previewMaterials, exportMaterials, mkMat, loadTexture,
      Material.descr]

/-- C5 counterexample: in the export path with backMode image and no
uploaded image, the back slot falls back to flat white, not to the side
color, contradicting the claimed side-color fallback for every slot other
than front. -/
theorem c5_counterexample :
    (exportMaterials "#2196f3" none "image" 0).1.back.descr ≠
      Descr.mk "#2196f3" none ∧
    (exportMaterials "#2196f3" none "image" 0).1.back.descr =
      Descr.mk "#fff" none := by
  decide

/-- C5 amended: both assigners always return exactly six defined
descriptors in the fixed order right, left, top, bottom, front, back, and
no slot is ever null; with no texture the preview assigner yields flat
white for front and flat side color for every other slot, while the
export assigner with no image yields flat side color for the four sides,
flat white for front, and — when backMode is image — flat white instead
of side color for back. -/
theorem c5_six_defined_descriptors (sc bm : String) (c d : Nat) :
    ((previewMaterials sc none bm c).1.toList.map Material.descr =
      [⟨sc, none⟩, ⟨sc, none⟩, ⟨sc, none⟩, ⟨sc, none⟩,
        ⟨"#fff", none⟩, ⟨sc, none⟩]) ∧
    ((exportMaterials sc none bm d).1.toList.map Material.descr =
      [⟨sc, none⟩, ⟨sc, none⟩, ⟨sc, none⟩, ⟨sc, none⟩, ⟨"#fff", none⟩,
        if bm == "image" then ⟨"#fff", none⟩ else ⟨sc, none⟩]) := by
  constructor
  · simp [previewMaterials, BoxMats.toList, mkMat, Material.descr]
  · cases hbm : bm == "image" <;>
      simp [exportMaterials, BoxMats.toList, mkMat, Material.descr, hbm]

/-- C6 counterexample: in the export scene the right and left slots are
two distinct material instances (separately constructed objects), so
there is no single shared side material there — the exported file carries
one material entry per instance, not the predicted two. -/
theorem c6_counterexample :
    (exportMaterials "#2196f3" (some "blob:0") "color" 0).1.right ≠
      (exportMaterials "#2196f3" (some "blob:0") "color" 0).1.left := by
  decide

/-- C6 amended: in the preview model the four side slots are one shared
material instance; in the export model the four side slots have equal
descriptors (same flat side color) but are pairwise distinct instances,
so the sides are value-equal without being a single shared material. -/
theorem c6_shared_sides_preview_only (sc bm : String)
    (tex : Option Texture) (u : Option String) (c d : Nat) :
    ((previewMaterials sc tex bm c).1.right =
        (previewMaterials sc tex bm c).1.left ∧
      (previewMaterials sc tex bm c).1.right =
        (previewMaterials sc tex bm c).1.top ∧
      (previewMaterials sc tex bm c).1.right =
        (previewMaterials sc tex bm c).1.bottom) ∧
    ((exportMaterials sc u bm d).1.right.descr =
        (exportMaterials sc u bm d).1.left.descr ∧
      (exportMaterials sc u bm d).1.right.descr =
        (exportMaterials sc u bm d).1.top.descr ∧
      (exportMaterials sc u bm d).1.right.descr =
        (exportMaterials sc u bm d).1.bottom.descr ∧
      (exportMaterials sc u bm d).1.right ≠
        (exportMaterials sc u bm d).1.left ∧
      (exportMaterials sc u bm d).1.left ≠
        (exportMaterials sc u bm d).1.top ∧
      (exportMaterials sc u bm d).1.top ≠
        (exportMaterials sc u bm d).1.bottom) := by
  refine ⟨⟨rfl, rfl, rfl⟩, rfl, rfl, rfl, ?_, ?_, ?_⟩ <;>
    simp [exportMaterials, mkMat, Material.mk.injEq]

/-- C7 counterexample: two successive invocations of the preview material
computation with identical inputs (same side color, same absent texture,
same back mode) yield arrays that are not bit-identical, because each
invocation constructs fresh material objects with fresh identities. -/
theorem c7_counterexample :
    (previewMaterials "#2196f3" none "image" 0).1 ≠
      (previewMaterials "#2196f3" none "image"
        (previewMaterials "#2196f3" none "image" 0).2).1 := by
  decide

/-- C7 amended: the assigner is deterministic at descriptor level —
identical inputs yield the same six value descriptors regardless of the
allocation state — but a repeated invocation constructs fresh objects, so
the arrays of two consecutive calls are never bit-identical. -/
theorem c7_deterministic_descriptors (sc bm : String)
    (tex : Option Texture) (c d : Nat) :
    ((previewMaterials sc tex bm c).1.toList.map Material.descr =
      (previewMaterials sc tex bm d).1.toList.map Material.descr) ∧
    ((previewMaterials sc tex bm
        (previewMaterials sc tex bm c).2).1.right.id ≠
      (previewMaterials sc tex bm c).1.right.id) := by
  constructor
  · cases tex <;> cases hbm : bm == "image" <;>
      simp [previewMaterials, BoxMats.toList, mkMat, Material.descr, hbm]
  · cases tex <;> cases hbm : bm == "image" <;>
      simp [previewMaterials, mkMat, hbm] <;> omega

/-- C8: evaluation of the texture pipeline at the failing trace. Image A
is uploaded, then image B before A's decode completes; B's decode
completes first and A's stale decode arrives last. The callback stores
its result unconditionally, so the final active texture is the one from
the older upload A — the stale result is not discarded. -/
theorem c8_stale_load_wins :
    runTextureEffect
      [LoadEvent.start "blob:A", LoadEvent.start "blob:B",
        LoadEvent.complete "blob:B" ⟨0, "blob:B", true⟩,
        LoadEvent.complete "blob:A" ⟨1, "blob:A", true⟩] =
      some ⟨1, "blob:A", true⟩ := by
  decide

/-- C9 counterexample: after a second upload, the object URL created for
the first upload is still allocated — replacing the image does not
release the superseded handle, because the source never revokes it. -/
theorem c9_counterexample :
    0 ∈ ((handleFile (some "b.png")
        (handleFile (some "a.png") initialState 0).1
        (handleFile (some "a.png") initialState 0).2).1).allocated := by
  decide

/-- C9 amended: the application state references only the newest object
URL, but replacing the image releases nothing: every upload pushes a
fresh handle onto the allocated list and no handle is ever removed during
the session. -/
theorem c9_superseded_handles_not_released (f : String) (s : AppState)
    (c : Nat) :
    (handleFile (some f) s c).1.imageUrl = some c ∧
    (handleFile (some f) s c).1.allocated = c :: s.allocated := by
  exact ⟨rfl, rfl⟩

/-- C10: when the change event carries no selected file, the upload
handler leaves the entire application state — imageUrl, extrusion, side
color, back mode, allocated handles — and the allocation counter
unchanged. -/
theorem c10_no_file_no_change (s : AppState) (c : Nat) :
    handleFile none s c = (s, c) := rfl
